import Mathlib

/-!
Verification of the real-time fraud detection engine
(src/realtime/fraud_detector.py) against its specification.

The Python code is shallowly embedded: datetimes become a record of the
fields the code reads (epoch seconds for differences, hour, weekday,
month, day), floats become rationals, dictionaries become association
lists, and the two fallible external collaborators (the injected feature
extractor and the model with predict_proba and explain_prediction) become
Except-valued functions, with a raised exception represented by the
error case.  Irrational numeric operations (log1p of numpy, the standard
deviation of numpy) are abstract parameters: no claim depends on their
values.
-/

namespace FraudDet

/-- Embedding of the datetime values the code reads: epochSeconds models
total_seconds of differences; hour, weekday, month, day model the
attribute reads in the temporal features. -/
structure DateTime where
  epochSeconds : Int
  hour : Nat
  weekday : Nat
  month : Nat
  day : Nat
deriving DecidableEq, Repr

/-- Transaction data model (class Transaction).  The metadata dictionary
is omitted: no embedded operation reads it. -/
structure Transaction where
  transaction_id : String
  user_id : String
  merchant_id : String
  amount : Rat
  currency : String
  timestamp : DateTime
  transaction_type : String
  channel : String
  ip_address : Option String := none
  country : Option String := none
  city : Option String := none
  device_id : Option String := none
  device_type : Option String := none
  is_first_transaction : Bool := false
  account_age_days : Int := 0
deriving DecidableEq, Repr

/-- One entry of a user history window: the dictionary appended by
FeatureExtractor.update_history. -/
structure HistEntry where
  amount : Rat
  timestamp : DateTime
  merchant_id : String
deriving DecidableEq, Repr

/-- Append to a deque with maxlen cap: when the deque is full the
leftmost (oldest) element is dropped. -/
def dequeAppend (cap : Nat) (xs : List α) (x : α) : List α :=
  if xs.length < cap then xs ++ [x] else xs.tail ++ [x]

/-- The user_transaction_history dictionary: user id to window. -/
abbrev History := List (String × List HistEntry)

/-- Dictionary lookup with the empty deque as default
(user_transaction_history.get(user_id, deque(maxlen=100))). -/
def histGet : History → String → List HistEntry
  | [], _ => []
  | (k, v) :: rest, u => if k == u then v else histGet rest u

/-- Dictionary store: replace the binding of the key, or add it. -/
def setHist : History → String → List HistEntry → History
  | [], u, w => [(u, w)]
  | (k, v) :: rest, u, w => if k == u then (u, w) :: rest else (k, v) :: setHist rest u w

/-- The history entry built from a transaction by update_history. -/
def entryOf (t : Transaction) : HistEntry :=
  { amount := t.amount, timestamp := t.timestamp, merchant_id := t.merchant_id }

/-- FeatureExtractor.update_history: create the window of the user on
first use, then append the entry, the deque evicting the oldest entry
beyond capacity 100. -/
def update_history (h : History) (t : Transaction) : History :=
  setHist h t.user_id (dequeAppend 100 (histGet h t.user_id) (entryOf t))

theorem histGet_setHist_self (h : History) (u : String) (w : List HistEntry) :
    histGet (setHist h u w) u = w := by
  induction h with
  | nil => simp [setHist, histGet]
  | cons p rest ih =>
    obtain ⟨k, v⟩ := p
    by_cases hk : k == u
    · simp [setHist, histGet, hk]
    · simp only [setHist, hk, if_neg, Bool.false_eq_true, not_false_eq_true, ite_false]
      simpa [histGet, hk] using ih

theorem histGet_setHist_ne (h : History) (u u' : String) (w : List HistEntry)
    (hne : u ≠ u') : histGet (setHist h u w) u' = histGet h u' := by
  induction h with
  | nil => simp [setHist, histGet, hne]
  | cons p rest ih =>
    obtain ⟨k, v⟩ := p
    by_cases hk : k == u
    · have hku : k = u := by simpa using hk
      simp [setHist, histGet, hk, hku, hne]
    · simp only [setHist, hk, Bool.false_eq_true, if_neg, not_false_eq_true, ite_false]
      by_cases hk' : k == u'
      · simp [histGet, hk']
      · simpa [histGet, hk'] using ih

theorem histGet_update_self (h : History) (t : Transaction) :
    histGet (update_history h t) t.user_id
      = dequeAppend 100 (histGet h t.user_id) (entryOf t) := by
  simp [update_history, histGet_setHist_self]

/-- Folding updates for a single user acts on that window exactly as
folding dequeAppend over the corresponding entries. -/
theorem histGet_foldl_update (ts : List Transaction) (h : History) (u : String)
    (hall : ∀ t ∈ ts, t.user_id = u) :
    histGet (ts.foldl update_history h) u
      = (ts.map entryOf).foldl (dequeAppend 100) (histGet h u) := by
  induction ts generalizing h with
  | nil => rfl
  | cons t rest ih =>
    have hu : t.user_id = u := hall t (List.mem_cons_self t rest)
    have hrest : ∀ x ∈ rest, x.user_id = u := fun x hx => hall x (List.mem_cons_of_mem t hx)
    simp only [List.foldl_cons, List.map_cons]
    rw [ih (update_history h t) hrest]
    rw [update_history, hu, histGet_setHist_self]

/-- Folding dequeAppend at capacity 100 from the empty window keeps
exactly the most recent 100 entries. -/
theorem foldl_dequeAppend_drop (es : List α) :
    es.foldl (dequeAppend 100) [] = es.drop (es.length - 100) := by
  induction es using List.reverseRecOn with
  | nil => rfl
  | append_singleton l a ih =>
    rw [List.foldl_append, List.foldl_cons, List.foldl_nil, ih]
    by_cases hl : l.length < 100
    · have h1 : l.length - 100 = 0 := by omega
      have h2 : l.length + 1 - 100 = 0 := by omega
      simp [dequeAppend, h1, h2, hl]
    · have hw : (l.drop (l.length - 100)).length = 100 := by
        rw [List.length_drop]; omega
      have hnot : ¬ (l.drop (l.length - 100)).length < 100 := by omega
      rw [dequeAppend, if_neg hnot, List.tail_drop]
      have h2 : (l ++ [a]).length - 100 = l.length - 100 + 1 := by
        simp only [List.length_append, List.length_cons, List.length_nil]; omega
      rw [h2, List.drop_append_of_le_length (by omega : l.length - 100 + 1 ≤ l.length)]

/-- A feature vector: mapping from feature name to numeric value, in
insertion order (Python dict built by successive update calls with
pairwise distinct keys). -/
abbrev FeatureVec := List (String × Rat)

/-- Merchant aggregate statistics; absent keys default to zero. -/
structure MerchantStats where
  avg_amount : Rat := 0
  count : Rat := 0
  fraud_rate : Rat := 0
deriving DecidableEq, Repr

/-- State of FeatureExtractor: per-user history windows and the merchant
statistics table. -/
structure FEState where
  user_transaction_history : History := []
  merchant_statistics : List (String × MerchantStats) := []
deriving DecidableEq, Repr

/-- merchant_statistics.get(merchant_id, empty dict), each field then read
with default 0. -/
def merchGet : List (String × MerchantStats) → String → MerchantStats
  | [], _ => {}
  | (k, v) :: rest, m => if k == m then v else merchGet rest m

/-- np.mean over the exact rationals. -/
def listMean (l : List Rat) : Rat := l.sum / l.length

/-- np.max of a nonempty list (0 on the empty list, never reached). -/
def listMax : List Rat → Rat
  | [] => 0
  | x :: xs => xs.foldl max x

/-- The epsilon denominator guard 1e-10 of the source. -/
def eps : Rat := 1 / 10000000000

/-- FeatureExtractor._extract_transaction_features. -/
def extract_transaction_features (log1p : Rat → Rat) (txn : Transaction) : FeatureVec :=
  [("amount", txn.amount),
   ("amount_log", log1p txn.amount),
   ("transaction_type_purchase", if txn.transaction_type == "purchase" then 1 else 0),
   ("transaction_type_withdrawal", if txn.transaction_type == "withdrawal" then 1 else 0),
   ("transaction_type_transfer", if txn.transaction_type == "transfer" then 1 else 0),
   ("channel_online", if txn.channel == "online" then 1 else 0),
   ("channel_mobile", if txn.channel == "mobile" then 1 else 0),
   ("channel_atm", if txn.channel == "atm" then 1 else 0),
   ("channel_pos", if txn.channel == "pos" then 1 else 0),
   ("is_first_transaction", if txn.is_first_transaction then 1 else 0),
   ("account_age_days", (txn.account_age_days : Rat)),
   ("account_age_days_log", log1p (txn.account_age_days : Rat))]

/-- FeatureExtractor._extract_temporal_features. -/
def extract_temporal_features (txn : Transaction) : FeatureVec :=
  [("hour", (txn.timestamp.hour : Rat)),
   ("day_of_week", (txn.timestamp.weekday : Rat)),
   ("is_weekend", if 5 ≤ txn.timestamp.weekday then 1 else 0),
   ("is_night", if txn.timestamp.hour < 6 ∨ 22 < txn.timestamp.hour then 1 else 0),
   ("is_business_hours", if 9 ≤ txn.timestamp.hour ∧ txn.timestamp.hour ≤ 17 then 1 else 0),
   ("month", (txn.timestamp.month : Rat)),
   ("day_of_month", (txn.timestamp.day : Rat))]

/-- FeatureExtractor._extract_user_features.  The standard deviation of
numpy is the abstract parameter npStd. -/
def extract_user_features (npStd : List Rat → Rat) (fe : FEState) (txn : Transaction) : FeatureVec :=
  let user_history := histGet fe.user_transaction_history txn.user_id
  if user_history.isEmpty then
    [("user_transaction_count", 0),
     ("user_avg_amount", 0),
     ("user_std_amount", 0),
     ("user_max_amount", 0),
     ("user_total_amount_24h", 0)]
  else
    let amounts := user_history.map (fun t => t.amount)
    let recent_24h := (user_history.filter
        (fun t => txn.timestamp.epochSeconds - t.timestamp.epochSeconds < 86400)).map
        (fun t => t.amount)
    [("user_transaction_count", (user_history.length : Rat)),
     ("user_avg_amount", listMean amounts),
     ("user_std_amount", npStd amounts),
     ("user_max_amount", listMax amounts),
     ("user_total_amount_24h", recent_24h.sum),
     ("user_transaction_count_24h", (recent_24h.length : Rat))]

/-- FeatureExtractor._extract_merchant_features. -/
def extract_merchant_features (fe : FEState) (txn : Transaction) : FeatureVec :=
  let merchant_stats := merchGet fe.merchant_statistics txn.merchant_id
  [("merchant_avg_amount", merchant_stats.avg_amount),
   ("merchant_transaction_count", merchant_stats.count),
   ("merchant_fraud_rate", merchant_stats.fraud_rate)]

/-- Placeholder entry for the unreachable default of getLastD. -/
def dummyEntry : HistEntry := { amount := 0, timestamp := ⟨0, 0, 0, 0, 0⟩, merchant_id := "" }

/-- FeatureExtractor._extract_velocity_features.  Note the source guard:
the sentinel branch is taken whenever the window holds fewer than TWO
entries, not only when it is empty. -/
def extract_velocity_features (fe : FEState) (txn : Transaction) : FeatureVec :=
  let user_history := histGet fe.user_transaction_history txn.user_id
  if user_history.length < 2 then
    [("time_since_last_transaction_seconds", 999999),
     ("transactions_last_hour", 0),
     ("transactions_last_day", 0)]
  else
    let last_timestamp := (user_history.getLastD dummyEntry).timestamp
    let time_since_last : Rat := ((txn.timestamp.epochSeconds - last_timestamp.epochSeconds : Int) : Rat)
    let one_hour_ago := txn.timestamp.epochSeconds - 3600
    let one_day_ago := txn.timestamp.epochSeconds - 86400
    let txn_last_hour := (user_history.filter
        (fun t => one_hour_ago < t.timestamp.epochSeconds)).length
    let txn_last_day := (user_history.filter
        (fun t => one_day_ago < t.timestamp.epochSeconds)).length
    [("time_since_last_transaction_seconds", time_since_last),
     ("time_since_last_transaction_minutes", time_since_last / 60),
     ("transactions_last_hour", (txn_last_hour : Rat)),
     ("transactions_last_day", (txn_last_day : Rat))]

/-- FeatureExtractor._extract_anomaly_features. -/
def extract_anomaly_features (npStd : List Rat → Rat) (fe : FEState) (txn : Transaction) : FeatureVec :=
  let user_history := histGet fe.user_transaction_history txn.user_id
  if user_history.isEmpty then
    [("amount_deviation_from_avg", 0),
     ("is_amount_outlier", 0)]
  else
    let amounts := user_history.map (fun t => t.amount)
    let avg_amount := listMean amounts
    let std_amount := if 1 < amounts.length then npStd amounts else 0
    let deviation := (txn.amount - avg_amount) / (std_amount + eps)
    let is_outlier : Rat := if 3 < |deviation| then 1 else 0
    [("amount_deviation_from_avg", deviation),
     ("is_amount_outlier", is_outlier),
     ("amount_vs_avg_ratio", txn.amount / (avg_amount + eps))]

/-- FeatureExtractor.extract_features: the six feature groups merged in
order; all keys are pairwise distinct so the dict update chain equals
list concatenation. -/
def extract_features (log1p : Rat → Rat) (npStd : List Rat → Rat)
    (fe : FEState) (txn : Transaction) : FeatureVec :=
  extract_transaction_features log1p txn
    ++ extract_temporal_features txn
    ++ extract_user_features npStd fe txn
    ++ extract_merchant_features fe txn
    ++ extract_velocity_features fe txn
    ++ extract_anomaly_features npStd fe txn

/-- Fraud detection result (class FraudResult).  The wall-clock result
timestamp (datetime.now default) is not modelled. -/
structure FraudResult where
  transaction_id : String
  fraud_score : Rat
  is_fraud : Bool
  risk_level : String
  decision : String
  top_risk_factors : List (String × Rat) := []
  model_version : Option String := none
  processing_time_ms : Rat := 0
  action_taken : Option String := none
deriving DecidableEq, Repr

/-- State of RealTimeFraudDetector: thresholds, counters, the bounded
processing-time buffer (deque maxlen 1000) and the feature extractor
state. -/
structure EngineState where
  high_risk_threshold : Rat := 9 / 10
  medium_risk_threshold : Rat := 1 / 2
  total_transactions : Nat := 0
  total_fraud_detected : Nat := 0
  processing_times : List Rat := []
  fe : FEState := {}
deriving DecidableEq, Repr

/-- The fail-safe result built in the except branch of detect_fraud:
score 0.5, is_fraud True, risk medium, decision review, elapsed time. -/
def failSafeResult (txn : Transaction) (elapsed_ms : Rat) : FraudResult :=
  { transaction_id := txn.transaction_id
    fraud_score := 1 / 2
    is_fraud := true
    risk_level := "medium"
    decision := "review"
    top_risk_factors := []
    model_version := none
    processing_time_ms := elapsed_ms }

/-- RealTimeFraudDetector.detect_fraud.  The injected collaborators are
the feature extractor (extract, reading the extractor state) and the
model (predict_proba, explain_prediction, version); a raised exception
in either fallible call is the Except error case and lands in the
except branch, which returns the fail-safe result without touching any
state.  The two elapsed-time reads of the wall clock are abstracted by
the elapsed_ms parameter.  A failing explain_prediction is caught by
the inner handler: it only empties top_risk_factors. -/
def detect_fraud
    (extract : FEState → Transaction → Except String FeatureVec)
    (predict_proba : FeatureVec → Except String Rat)
    (explain_prediction : FeatureVec → Except String (List (String × Rat)))
    (version : String)
    (st : EngineState) (txn : Transaction) (elapsed_ms : Rat) :
    FraudResult × EngineState :=
  match extract st.fe txn with
  | .error _ => (failSafeResult txn elapsed_ms, st)
  | .ok features =>
    match predict_proba features with
    | .error _ => (failSafeResult txn elapsed_ms, st)
    | .ok fraud_score =>
      let is_fraud := st.medium_risk_threshold ≤ fraud_score
      let risk_decision :=
        if st.high_risk_threshold ≤ fraud_score then ("high", "decline")
        else if st.medium_risk_threshold ≤ fraud_score then ("medium", "review")
        else ("low", "approve")
      let risk_factors :=
        match explain_prediction features with
        | .ok contribs => contribs.take 5
        | .error _ => []
      let st1 : EngineState :=
        { st with
          processing_times := dequeAppend 1000 st.processing_times elapsed_ms
          total_transactions := st.total_transactions + 1
          total_fraud_detected := st.total_fraud_detected + (if is_fraud then 1 else 0)
          fe := { st.fe with
                  user_transaction_history := update_history st.fe.user_transaction_history txn } }
      ({ transaction_id := txn.transaction_id
         fraud_score := fraud_score
         is_fraud := decide is_fraud
         risk_level := risk_decision.1
         decision := risk_decision.2
         top_risk_factors := risk_factors
         model_version := some version
         processing_time_ms := elapsed_ms }, st1)

/-- The production wiring of the extraction collaborator: the in-engine
FeatureExtractor.extract_features, which returns normally. -/
def okExtract (log1p : Rat → Rat) (npStd : List Rat → Rat) :
    FEState → Transaction → Except String FeatureVec :=
  fun fe txn => .ok (extract_features log1p npStd fe txn)

/-- The malformedness condition of the specification error taxonomy:
non-positive amount, or a transaction type or channel outside the
documented enumerations. -/
def isMalformed (t : Transaction) : Bool :=
  t.amount ≤ 0
    || !(["purchase", "withdrawal", "transfer", "payment"].contains t.transaction_type)
    || !(["online", "mobile", "atm", "pos"].contains t.channel)

/-- One feedback record of AdaptiveThresholdManager (the stored
timestamp, defaulted to the wall clock, is carried abstractly). -/
structure FeedbackRecord where
  fraud_score : Rat
  actual_fraud : Bool
  timestamp : Option Int := none
deriving DecidableEq, Repr

/-- State of AdaptiveThresholdManager. -/
structure AdaptiveThresholdManager where
  threshold : Rat := 1 / 2
  target_precision : Rat := 95 / 100
  target_recall : Rat := 90 / 100
  feedback_history : List FeedbackRecord := []
deriving DecidableEq, Repr

/-- AdaptiveThresholdManager.add_feedback. -/
def add_feedback (m : AdaptiveThresholdManager) (fraud_score : Rat)
    (actual_fraud : Bool) (timestamp : Option Int) : AdaptiveThresholdManager :=
  { m with feedback_history :=
      m.feedback_history ++ [{ fraud_score := fraud_score, actual_fraud := actual_fraud,
                               timestamp := timestamp }] }

/-- The Python slice l[-n:]: the most recent n elements. -/
def lastSlice (n : Nat) (l : List α) : List α := l.drop (l.length - n)

/-- True positives at a candidate threshold: score at or above the
threshold and actually fraudulent. -/
def truePos (recent : List FeedbackRecord) (t : Rat) : Nat :=
  (recent.filter (fun f => decide (t ≤ f.fraud_score) && f.actual_fraud)).length

/-- False positives at a candidate threshold. -/
def falsePos (recent : List FeedbackRecord) (t : Rat) : Nat :=
  (recent.filter (fun f => decide (t ≤ f.fraud_score) && !f.actual_fraud)).length

/-- False negatives at a candidate threshold. -/
def falseNeg (recent : List FeedbackRecord) (t : Rat) : Nat :=
  (recent.filter (fun f => decide (f.fraud_score < t) && f.actual_fraud)).length

/-- Precision with the 1e-10 denominator guard of the source. -/
def precisionAt (recent : List FeedbackRecord) (t : Rat) : Rat :=
  (truePos recent t : Rat) / ((truePos recent t : Rat) + (falsePos recent t : Rat) + eps)

/-- Recall with the 1e-10 denominator guard of the source. -/
def recallAt (recent : List FeedbackRecord) (t : Rat) : Rat :=
  (truePos recent t : Rat) / ((truePos recent t : Rat) + (falseNeg recent t : Rat) + eps)

/-- The distance-from-target objective minimized by the loop. -/
def calibLoss (recent : List FeedbackRecord) (target_precision target_recall t : Rat) : Rat :=
  |precisionAt recent t - target_precision| + |recallAt recent t - target_recall|

/-- np.linspace(0.1, 0.9, 50): the 50 evenly spaced candidates. -/
def thresholdGrid : List Rat :=
  (List.range 50).map (fun i : Nat => 1 / 10 + (i : Rat) * (8 / 10) / 49)

/-- One iteration of the optimization loop: the accumulator carries
(best_threshold, best_score) with the initial minus-infinity best score
as none; a strictly greater score replaces the incumbent. -/
def calibStep (g : Rat → Rat) (acc : Rat × Option Rat) (t : Rat) : Rat × Option Rat :=
  match acc.2 with
  | none => (t, some (g t))
  | some bs => if bs < g t then (t, some (g t)) else acc

/-- AdaptiveThresholdManager.optimize_threshold: the returned value and
the state after the call. -/
def optimize_threshold (m : AdaptiveThresholdManager) : Rat × AdaptiveThresholdManager :=
  if m.feedback_history.length < 100 then (m.threshold, m)
  else
    let recent := lastSlice 1000 m.feedback_history
    let g := fun t => -(calibLoss recent m.target_precision m.target_recall t)
    let best := thresholdGrid.foldl (calibStep g) (m.threshold, none)
    (best.1, { m with threshold := best.1 })

/-- Reference form of the loop accumulator: the incumbent after folding
the strict-improvement rule over a list of candidates. -/
def pickBest (g : α → Rat) (b : α) : List α → α
  | [] => b
  | t :: ts => if g b < g t then pickBest g t ts else pickBest g b ts

theorem pickBest_mem (g : α → Rat) (b : α) (l : List α) : pickBest g b l ∈ b :: l := by
  induction l generalizing b with
  | nil => simp [pickBest]
  | cons t ts ih =>
    by_cases h : g b < g t
    · simp only [pickBest, if_pos h]
      exact List.mem_cons_of_mem b (ih t)
    · simp only [pickBest, if_neg h]
      rcases List.mem_cons.mp (ih b) with h1 | h1
      · rw [h1]
        exact List.mem_cons_self b (t :: ts)
      · exact List.mem_cons_of_mem _ (List.mem_cons_of_mem _ h1)

theorem pickBest_le (g : α → Rat) (b : α) (l : List α) :
    ∀ x ∈ b :: l, g x ≤ g (pickBest g b l) := by
  induction l generalizing b with
  | nil =>
    intro x hx
    have hxb : x = b := by simpa using hx
    simp [pickBest, hxb]
  | cons t ts ih =>
    intro x hx
    by_cases h : g b < g t
    · simp only [pickBest, if_pos h]
      rcases List.mem_cons.mp hx with hxb | hx'
      · rw [hxb]
        exact le_of_lt (lt_of_lt_of_le h (ih t t (List.mem_cons_self t ts)))
      · exact ih t x hx'
    · simp only [pickBest, if_neg h]
      rcases List.mem_cons.mp hx with hxb | hx'
      · rw [hxb]
        exact ih b b (List.mem_cons_self b ts)
      · rcases List.mem_cons.mp hx' with hxt | hx''
        · rw [hxt]
          exact le_trans (not_lt.mp h) (ih b b (List.mem_cons_self b ts))
        · exact ih b x (List.mem_cons_of_mem b hx'')

theorem pickBest_first (g : α → Rat) (b : α) (l : List α) :
    ∃ l1 l2, b :: l = l1 ++ pickBest g b l :: l2
      ∧ ∀ x ∈ l1, g x < g (pickBest g b l) := by
  induction l generalizing b with
  | nil => exact ⟨[], [], rfl, by simp⟩
  | cons t ts ih =>
    by_cases h : g b < g t
    · simp only [pickBest, if_pos h]
      obtain ⟨l1, l2, heq, hlt⟩ := ih t
      have hble : g t ≤ g (pickBest g t ts) := pickBest_le g t ts t (List.mem_cons_self t ts)
      refine ⟨b :: l1, l2, ?_, ?_⟩
      · rw [List.cons_append, ← heq]
      · intro x hx
        rcases List.mem_cons.mp hx with hxb | hx'
        · rw [hxb]
          exact lt_of_lt_of_le h hble
        · exact hlt x hx'
    · simp only [pickBest, if_neg h]
      obtain ⟨l1, l2, heq, hlt⟩ := ih b
      cases l1 with
      | nil =>
        rw [List.nil_append] at heq
        injection heq with h1 h2
        refine ⟨[], t :: l2, ?_, by simp⟩
        rw [List.nil_append, ← h1, ← h2]
      | cons a l1' =>
        rw [List.cons_append] at heq
        injection heq with h1 h2
        refine ⟨b :: t :: l1', l2, ?_, ?_⟩
        · rw [List.cons_append, List.cons_append, ← h2]
        · intro x hx
          have hbp : g b < g (pickBest g b ts) := by
            have := hlt a (List.mem_cons_self a l1')
            rwa [← h1] at this
          rcases List.mem_cons.mp hx with hxb | hx'
          · rw [hxb]
            exact hbp
          · rcases List.mem_cons.mp hx' with hxt | hx''
            · rw [hxt]
              exact lt_of_le_of_lt (not_lt.mp h) hbp
            · exact hlt x (List.mem_cons_of_mem a hx'')

theorem foldl_calibStep_some (g : Rat → Rat) (l : List Rat) (b : Rat) :
    l.foldl (calibStep g) (b, some (g b))
      = (pickBest g b l, some (g (pickBest g b l))) := by
  induction l generalizing b with
  | nil => rfl
  | cons t ts ih =>
    have hstep : calibStep g (b, some (g b)) t
        = if g b < g t then (t, some (g t)) else (b, some (g b)) := rfl
    rw [List.foldl_cons, hstep]
    by_cases h : g b < g t
    · rw [if_pos h]
      simp only [pickBest, if_pos h]
      exact ih t
    · rw [if_neg h]
      simp only [pickBest, if_neg h]
      exact ih b

theorem foldl_calibStep_none (g : Rat → Rat) (d t : Rat) (ts : List Rat) :
    (t :: ts).foldl (calibStep g) (d, none)
      = (pickBest g t ts, some (g (pickBest g t ts))) := by
  rw [List.foldl_cons]
  have h1 : calibStep g (d, none) t = (t, some (g t)) := rfl
  rw [h1, foldl_calibStep_some]

/-- The loop result is the first candidate of the list attaining the
greatest score. -/
theorem foldl_calibStep_spec (g : Rat → Rat) (d : Rat) (l : List Rat) (hne : l ≠ []) :
    (l.foldl (calibStep g) (d, none)).1 ∈ l
      ∧ (∀ u ∈ l, g u ≤ g (l.foldl (calibStep g) (d, none)).1)
      ∧ ∃ l1 l2, l = l1 ++ (l.foldl (calibStep g) (d, none)).1 :: l2
          ∧ ∀ x ∈ l1, g x < g (l.foldl (calibStep g) (d, none)).1 := by
  cases l with
  | nil => exact absurd rfl hne
  | cons t ts =>
    rw [foldl_calibStep_none]
    exact ⟨pickBest_mem g t ts, pickBest_le g t ts, pickBest_first g t ts⟩

/-! Concrete fixtures used by witnesses and counterexamples. -/

/-- A trivial instantiation of the abstract log1p (no claim depends on
its values). -/
def l1z : Rat → Rat := fun _ => 0

/-- A trivial instantiation of the abstract numpy standard deviation. -/
def stdz : List Rat → Rat := fun _ => 0

def tx6 : Transaction :=
  { transaction_id := "t6", user_id := "u1", merchant_id := "m1", amount := 30,
    currency := "USD", timestamp := ⟨100, 10, 2, 3, 4⟩,
    transaction_type := "purchase", channel := "online" }

def oneEntry : HistEntry := { amount := 20, timestamp := ⟨0, 10, 2, 3, 4⟩, merchant_id := "m1" }

def fe6 : FEState := { user_transaction_history := [("u1", [oneEntry])] }

def fe2e : FEState :=
  { user_transaction_history :=
      [("u1", [oneEntry, { amount := 25, timestamp := ⟨40, 10, 2, 3, 4⟩, merchant_id := "m1" }])] }

def mkTx5 (i : Nat) : Transaction :=
  { transaction_id := toString i, user_id := "u", merchant_id := "m", amount := (i : Rat),
    currency := "USD", timestamp := ⟨(i : Int), 9, 1, 2, 3⟩,
    transaction_type := "purchase", channel := "online" }

def txs101 : List Transaction := (List.range 101).map mkTx5

def txBad : Transaction :=
  { transaction_id := "bad", user_id := "u9", merchant_id := "m9", amount := -5,
    currency := "USD", timestamp := ⟨0, 12, 2, 3, 4⟩,
    transaction_type := "purchase", channel := "online" }

def st0 : EngineState := {}

def stM7 : EngineState := { medium_risk_threshold := 7 / 10 }

def errExtract : FEState → Transaction → Except String FeatureVec :=
  fun _ _ => .error "feature extraction failed"

def errPredict : FeatureVec → Except String Rat := fun _ => .error "scorer unavailable"

def okPredict3 : FeatureVec → Except String Rat := fun _ => .ok (3 / 10)

def okExplain : FeatureVec → Except String (List (String × Rat)) := fun _ => .ok []

def noExplain : FeatureVec → Except String (List (String × Rat)) :=
  fun _ => .error "no explainer"

def mgr0 : AdaptiveThresholdManager := {}

def mgr100 : AdaptiveThresholdManager :=
  { feedback_history := (List.range 100).map
      (fun i : Nat => { fraud_score := (i : Rat) / 100, actual_fraud := decide (50 ≤ i) }) }

/-- The feature names produced by extract_features as a function of the
user history window length (read off the branches of the source). -/
def featureSchema (n : Nat) : List String :=
  ["amount", "amount_log", "transaction_type_purchase", "transaction_type_withdrawal",
   "transaction_type_transfer", "channel_online", "channel_mobile", "channel_atm",
   "channel_pos", "is_first_transaction", "account_age_days", "account_age_days_log",
   "hour", "day_of_week", "is_weekend", "is_night", "is_business_hours", "month",
   "day_of_month"]
    ++ (if n = 0 then
          ["user_transaction_count", "user_avg_amount", "user_std_amount",
           "user_max_amount", "user_total_amount_24h"]
        else
          ["user_transaction_count", "user_avg_amount", "user_std_amount",
           "user_max_amount", "user_total_amount_24h", "user_transaction_count_24h"])
    ++ ["merchant_avg_amount", "merchant_transaction_count", "merchant_fraud_rate"]
    ++ (if n < 2 then
          ["time_since_last_transaction_seconds", "transactions_last_hour",
           "transactions_last_day"]
        else
          ["time_since_last_transaction_seconds", "time_since_last_transaction_minutes",
           "transactions_last_hour", "transactions_last_day"])
    ++ (if n = 0 then
          ["amount_deviation_from_avg", "is_amount_outlier"]
        else
          ["amount_deviation_from_avg", "is_amount_outlier", "amount_vs_avg_ratio"])

/-! Claim theorems. -/

/-- C5: for every sequence of recorded transactions of one user, the
window of that user never holds more than 100 entries, and after 101
insertions the window holds exactly the 100 most recent entries in
insertion order, the first-inserted entry (when not re-inserted later)
being gone. -/
theorem user_window_capacity_fifo (ts : List Transaction) (u : String)
    (hall : ∀ t ∈ ts, t.user_id = u) :
    (histGet (ts.foldl update_history []) u).length ≤ 100
      ∧ (ts.length = 101 →
          histGet (ts.foldl update_history []) u = (ts.map entryOf).tail
            ∧ ∀ e, (ts.map entryOf).head? = some e → e ∉ (ts.map entryOf).tail →
                e ∉ histGet (ts.foldl update_history []) u) := by
  have hmain : histGet (ts.foldl update_history []) u
      = (ts.map entryOf).drop ((ts.map entryOf).length - 100) := by
    rw [histGet_foldl_update ts [] u hall]
    have hempty : histGet [] u = [] := rfl
    rw [hempty, foldl_dequeAppend_drop]
  constructor
  · rw [hmain, List.length_drop]
    omega
  · intro hlen
    have hml : (ts.map entryOf).length = 101 := by rw [List.length_map, hlen]
    have heq : histGet (ts.foldl update_history []) u = (ts.map entryOf).tail := by
      rw [hmain, hml]
      norm_num [List.drop_one]
    refine ⟨heq, ?_⟩
    intro e _ hni
    rw [heq]
    exact hni

theorem user_window_capacity_fifo_witness :
    (∀ t ∈ txs101, t.user_id = "u")
      ∧ txs101.length = 101
      ∧ (histGet (txs101.foldl update_history []) "u").length ≤ 100
      ∧ histGet (txs101.foldl update_history []) "u" = (txs101.map entryOf).tail
      ∧ entryOf (mkTx5 0) ∉ histGet (txs101.foldl update_history []) "u" := by
  have hall : ∀ t ∈ txs101, t.user_id = "u" := by decide
  have hlen : txs101.length = 101 := by decide
  have h := user_window_capacity_fifo txs101 "u" hall
  refine ⟨hall, hlen, h.1, (h.2 hlen).1, ?_⟩
  exact (h.2 hlen).2 (entryOf (mkTx5 0)) (by decide) (by decide)

/-- C6 counterexample: a user with exactly one prior history entry still
gets the 999999 sentinel, although the true gap to the preceding entry
is 100 seconds. -/
theorem velocity_sentinel_cex :
    histGet fe6.user_transaction_history tx6.user_id ≠ []
      ∧ (extract_velocity_features fe6 tx6).lookup "time_since_last_transaction_seconds"
          = some 999999
      ∧ ((tx6.timestamp.epochSeconds
            - ((histGet fe6.user_transaction_history tx6.user_id).getLastD
                dummyEntry).timestamp.epochSeconds : Int) : Rat) ≠ 999999 := by
  refine ⟨by decide, by decide, by decide⟩

/-- C6 amended: the sentinel 999999 is produced whenever the window
holds fewer than TWO entries (so also with exactly one prior entry);
with at least two entries the feature equals the seconds between the
transaction timestamp and the most recent entry of the window. -/
theorem velocity_time_since_last (fe : FEState) (txn : Transaction) :
    (2 ≤ (histGet fe.user_transaction_history txn.user_id).length →
        (extract_velocity_features fe txn).lookup "time_since_last_transaction_seconds"
          = some ((txn.timestamp.epochSeconds
              - ((histGet fe.user_transaction_history txn.user_id).getLastD
                  dummyEntry).timestamp.epochSeconds : Int) : Rat))
      ∧ ((histGet fe.user_transaction_history txn.user_id).length < 2 →
          (extract_velocity_features fe txn).lookup "time_since_last_transaction_seconds"
            = some 999999) := by
  constructor
  · intro h
    have hnot : ¬ (histGet fe.user_transaction_history txn.user_id).length < 2 := by omega
    simp [extract_velocity_features, hnot, List.lookup]
  · intro h
    simp [extract_velocity_features, h, List.lookup]

theorem velocity_time_since_last_witness :
    2 ≤ (histGet fe2e.user_transaction_history tx6.user_id).length
      ∧ (extract_velocity_features fe2e tx6).lookup "time_since_last_transaction_seconds"
          = some ((tx6.timestamp.epochSeconds
              - ((histGet fe2e.user_transaction_history tx6.user_id).getLastD
                  dummyEntry).timestamp.epochSeconds : Int) : Rat) :=
  ⟨by decide, (velocity_time_since_last fe2e tx6).1 (by decide)⟩

/-- C7 counterexample: the feature schema differs between an empty user
window and a one-entry user window for the same transaction. -/
theorem feature_schema_cex :
    (extract_features l1z stdz {} tx6).map Prod.fst
      ≠ (extract_features l1z stdz fe6 tx6).map Prod.fst := by decide

/-- C7 amended: the feature names returned by extract_features are a
function of the length of the user history window alone: an empty
window omits user_transaction_count_24h and amount_vs_avg_ratio, a
window with fewer than two entries omits
time_since_last_transaction_minutes, and only a window with at least
two entries yields the full schema. -/
theorem feature_schema_depends_on_history (log1p : Rat → Rat) (npStd : List Rat → Rat)
    (fe : FEState) (txn : Transaction) :
    (extract_features log1p npStd fe txn).map Prod.fst
      = featureSchema (histGet fe.user_transaction_history txn.user_id).length := by
  by_cases h0 : (histGet fe.user_transaction_history txn.user_id).isEmpty
  · have hl : (histGet fe.user_transaction_history txn.user_id).length = 0 := by
      rw [List.length_eq_zero]
      exact List.isEmpty_iff.mp h0
    simp [extract_features, extract_transaction_features, extract_temporal_features,
      extract_user_features, extract_merchant_features, extract_velocity_features,
      extract_anomaly_features, featureSchema, h0, hl]
  · have hl : (histGet fe.user_transaction_history txn.user_id).length ≠ 0 := by
      intro hc
      exact h0 (List.isEmpty_iff.mpr (List.length_eq_zero.mp hc))
    by_cases h2 : (histGet fe.user_transaction_history txn.user_id).length < 2
    · simp [extract_features, extract_transaction_features, extract_temporal_features,
        extract_user_features, extract_merchant_features, extract_velocity_features,
        extract_anomaly_features, featureSchema, h0, hl, h2]
    · simp [extract_features, extract_transaction_features, extract_temporal_features,
        extract_user_features, extract_merchant_features, extract_velocity_features,
        extract_anomaly_features, featureSchema, h0, hl, h2]

/-- C1: whenever feature extraction or scoring fails, detect_fraud does
not propagate the error: it returns the fail-safe FraudResult with
score 0.5, risk medium, decision review, and the elapsed processing
time. -/
theorem failsafe_on_error
    (extract : FEState → Transaction → Except String FeatureVec)
    (predict_proba : FeatureVec → Except String Rat)
    (explain_prediction : FeatureVec → Except String (List (String × Rat)))
    (version : String) (st : EngineState) (txn : Transaction) (elapsed_ms : Rat)
    (hfail : (∃ e, extract st.fe txn = .error e)
      ∨ (∃ f e, extract st.fe txn = .ok f ∧ predict_proba f = .error e)) :
    (detect_fraud extract predict_proba explain_prediction version st txn elapsed_ms).1
        = failSafeResult txn elapsed_ms
      ∧ (detect_fraud extract predict_proba explain_prediction version st txn
          elapsed_ms).1.fraud_score = 1 / 2
      ∧ (detect_fraud extract predict_proba explain_prediction version st txn
          elapsed_ms).1.risk_level = "medium"
      ∧ (detect_fraud extract predict_proba explain_prediction version st txn
          elapsed_ms).1.decision = "review"
      ∧ (detect_fraud extract predict_proba explain_prediction version st txn
          elapsed_ms).1.processing_time_ms = elapsed_ms := by
  have hres : (detect_fraud extract predict_proba explain_prediction version st txn
      elapsed_ms).1 = failSafeResult txn elapsed_ms := by
    rcases hfail with ⟨e, he⟩ | ⟨f, e, hf, he⟩
    · simp [detect_fraud, he]
    · simp [detect_fraud, hf, he]
  exact ⟨hres, by rw [hres]; rfl, by rw [hres]; rfl, by rw [hres]; rfl, by rw [hres]; rfl⟩

theorem failsafe_on_error_witness :
    (detect_fraud errExtract okPredict3 noExplain "v1" st0 tx6 7).1
        = failSafeResult tx6 7
      ∧ (detect_fraud errExtract okPredict3 noExplain "v1" st0 tx6 7).1.fraud_score = 1 / 2
      ∧ (detect_fraud errExtract okPredict3 noExplain "v1" st0 tx6 7).1.risk_level = "medium"
      ∧ (detect_fraud errExtract okPredict3 noExplain "v1" st0 tx6 7).1.decision = "review"
      ∧ (detect_fraud errExtract okPredict3 noExplain "v1" st0 tx6 7).1.processing_time_ms = 7 :=
  failsafe_on_error errExtract okPredict3 noExplain "v1" st0 tx6 7
    (Or.inl ⟨"feature extraction failed", rfl⟩)

/-- C10: whenever feature extraction or scoring fails, detect_fraud
leaves the whole engine state untouched: counters, the processing-time
buffer and the history windows are exactly as before the call. -/
theorem state_unchanged_on_error
    (extract : FEState → Transaction → Except String FeatureVec)
    (predict_proba : FeatureVec → Except String Rat)
    (explain_prediction : FeatureVec → Except String (List (String × Rat)))
    (version : String) (st : EngineState) (txn : Transaction) (elapsed_ms : Rat)
    (hfail : (∃ e, extract st.fe txn = .error e)
      ∨ (∃ f e, extract st.fe txn = .ok f ∧ predict_proba f = .error e)) :
    (detect_fraud extract predict_proba explain_prediction version st txn elapsed_ms).2 = st := by
  rcases hfail with ⟨e, he⟩ | ⟨f, e, hf, he⟩
  · simp [detect_fraud, he]
  · simp [detect_fraud, hf, he]

theorem state_unchanged_on_error_witness :
    (detect_fraud (okExtract l1z stdz) errPredict okExplain "v1" st0 tx6 7).2 = st0 :=
  state_unchanged_on_error (okExtract l1z stdz) errPredict okExplain "v1" st0 tx6 7
    (Or.inr ⟨extract_features l1z stdz st0.fe tx6, "scorer unavailable", rfl, rfl⟩)

/-- C4: for a successfully scored transaction with ordered thresholds,
the risk level and decision follow the two-threshold mapping: at or
above high gives high and decline, between medium and high gives
medium and review, below medium gives low and approve. -/
theorem risk_decision_mapping
    (extract : FEState → Transaction → Except String FeatureVec)
    (predict_proba : FeatureVec → Except String Rat)
    (explain_prediction : FeatureVec → Except String (List (String × Rat)))
    (version : String) (st : EngineState) (txn : Transaction) (elapsed_ms : Rat)
    (f : FeatureVec) (s : Rat)
    (hx : extract st.fe txn = .ok f) (hp : predict_proba f = .ok s)
    (h0 : 0 ≤ st.medium_risk_threshold)
    (h1 : st.medium_risk_threshold ≤ st.high_risk_threshold)
    (h2 : st.high_risk_threshold ≤ 1) :
    (detect_fraud extract predict_proba explain_prediction version st txn
        elapsed_ms).1.fraud_score = s
      ∧ (st.high_risk_threshold ≤ s →
          (detect_fraud extract predict_proba explain_prediction version st txn
              elapsed_ms).1.risk_level = "high"
            ∧ (detect_fraud extract predict_proba explain_prediction version st txn
                elapsed_ms).1.decision = "decline")
      ∧ (st.medium_risk_threshold ≤ s ∧ s < st.high_risk_threshold →
          (detect_fraud extract predict_proba explain_prediction version st txn
              elapsed_ms).1.risk_level = "medium"
            ∧ (detect_fraud extract predict_proba explain_prediction version st txn
                elapsed_ms).1.decision = "review")
      ∧ (s < st.medium_risk_threshold →
          (detect_fraud extract predict_proba explain_prediction version st txn
              elapsed_ms).1.risk_level = "low"
            ∧ (detect_fraud extract predict_proba explain_prediction version st txn
                elapsed_ms).1.decision = "approve") := by
  refine ⟨by simp [detect_fraud, hx, hp], ?_, ?_, ?_⟩
  · intro hs
    constructor <;> simp [detect_fraud, hx, hp, hs]
  · rintro ⟨hm, hh⟩
    have hnot : ¬ st.high_risk_threshold ≤ s := not_le.mpr hh
    constructor <;> simp [detect_fraud, hx, hp, hnot, hm]
  · intro hs
    have hnotm : ¬ st.medium_risk_threshold ≤ s := not_le.mpr hs
    have hnoth : ¬ st.high_risk_threshold ≤ s := not_le.mpr (lt_of_lt_of_le hs h1)
    constructor <;> simp [detect_fraud, hx, hp, hnotm, hnoth]

theorem risk_decision_mapping_witness :
    (detect_fraud (okExtract l1z stdz) okPredict3 okExplain "v1" st0 tx6 7).1.fraud_score = 3 / 10
      ∧ ((3 : Rat) / 10 < st0.medium_risk_threshold →
          (detect_fraud (okExtract l1z stdz) okPredict3 okExplain "v1" st0 tx6 7).1.risk_level
              = "low"
            ∧ (detect_fraud (okExtract l1z stdz) okPredict3 okExplain "v1" st0 tx6 7).1.decision
              = "approve")
      ∧ (detect_fraud (okExtract l1z stdz) okPredict3 okExplain "v1" st0 tx6 7).1.risk_level
          = "low" := by
  have h := risk_decision_mapping (okExtract l1z stdz) okPredict3 okExplain "v1" st0 tx6 7
    (extract_features l1z stdz st0.fe tx6) (3 / 10) rfl rfl (by norm_num [st0])
    (by norm_num [st0]) (by norm_num [st0])
  exact ⟨h.1, h.2.2.2, (h.2.2.2 (by norm_num [st0])).1⟩

/-- C3 counterexample: with medium_risk_threshold 0.7 and a failing
scorer, the fail-safe result has is_fraud true although its score 0.5
is below the threshold. -/
theorem is_fraud_iff_cex :
    (detect_fraud errExtract okPredict3 okExplain "v1" stM7 tx6 2).1.is_fraud = true
      ∧ ¬ (stM7.medium_risk_threshold
            ≤ (detect_fraud errExtract okPredict3 okExplain "v1" stM7 tx6 2).1.fraud_score) := by
  have h1 : (detect_fraud errExtract okPredict3 okExplain "v1" stM7 tx6 2).1
      = failSafeResult tx6 2 := by
    simp [detect_fraud, errExtract]
  rw [h1]
  refine ⟨rfl, ?_⟩
  norm_num [failSafeResult, stM7]

/-- C3 amended: is_fraud equals score at or above medium_risk_threshold
for every successfully scored result; the fail-safe result instead has
is_fraud hard-wired to true with score 0.5, so the equivalence extends
to it exactly when medium_risk_threshold is at most 0.5 (as with the
default configuration). -/
theorem is_fraud_iff_threshold
    (extract : FEState → Transaction → Except String FeatureVec)
    (predict_proba : FeatureVec → Except String Rat)
    (explain_prediction : FeatureVec → Except String (List (String × Rat)))
    (version : String) (st : EngineState) (txn : Transaction) (elapsed_ms : Rat) :
    (∀ f s, extract st.fe txn = .ok f → predict_proba f = .ok s →
        ((detect_fraud extract predict_proba explain_prediction version st txn
            elapsed_ms).1.is_fraud = true
          ↔ st.medium_risk_threshold
              ≤ (detect_fraud extract predict_proba explain_prediction version st txn
                  elapsed_ms).1.fraud_score))
      ∧ (st.medium_risk_threshold ≤ 1 / 2 →
          ((detect_fraud extract predict_proba explain_prediction version st txn
              elapsed_ms).1.is_fraud = true
            ↔ st.medium_risk_threshold
                ≤ (detect_fraud extract predict_proba explain_prediction version st txn
                    elapsed_ms).1.fraud_score)) := by
  constructor
  · intro f s hx hp
    simp [detect_fraud, hx, hp]
  · intro hm
    cases hx : extract st.fe txn with
    | error e =>
      have h1 : (detect_fraud extract predict_proba explain_prediction version st txn
          elapsed_ms).1 = failSafeResult txn elapsed_ms := by
        simp [detect_fraud, hx]
      rw [h1]
      exact ⟨fun _ => hm, fun _ => rfl⟩
    | ok f =>
      cases hp : predict_proba f with
      | error e =>
        have h1 : (detect_fraud extract predict_proba explain_prediction version st txn
            elapsed_ms).1 = failSafeResult txn elapsed_ms := by
          simp [detect_fraud, hx, hp]
        rw [h1]
        exact ⟨fun _ => hm, fun _ => rfl⟩
      | ok s => simp [detect_fraud, hx, hp]

theorem is_fraud_iff_threshold_witness :
    st0.medium_risk_threshold ≤ 1 / 2
      ∧ ((detect_fraud errExtract okPredict3 okExplain "v1" st0 tx6 2).1.is_fraud = true
          ↔ st0.medium_risk_threshold
              ≤ (detect_fraud errExtract okPredict3 okExplain "v1" st0 tx6 2).1.fraud_score) :=
  ⟨by norm_num [st0],
   (is_fraud_iff_threshold errExtract okPredict3 okExplain "v1" st0 tx6 2).2 (by norm_num [st0])⟩

/-- C2 counterexample: a transaction with negative amount is not
rejected: detect_fraud processes it like any other, returns a
FraudResult for it, and mutates the engine state (the transaction
counter is incremented). -/
theorem no_validation_cex :
    isMalformed txBad = true
      ∧ (detect_fraud (okExtract l1z stdz) okPredict3 okExplain "v1" st0 txBad 3).2.total_transactions
          = st0.total_transactions + 1
      ∧ (detect_fraud (okExtract l1z stdz) okPredict3 okExplain "v1" st0 txBad
          3).1.transaction_id = txBad.transaction_id := by
  refine ⟨by decide, by decide, by decide⟩

/-- C2 amended: detect_fraud performs no input validation: a malformed
transaction (non-positive amount or unknown enumeration value) whose
scoring succeeds is processed exactly like a well-formed one: its score
is returned, the transaction counter is incremented and its entry is
recorded into the user history, and no typed validation error exists in
the interface. -/
theorem malformed_processed_normally (log1p : Rat → Rat) (npStd : List Rat → Rat)
    (predict_proba : FeatureVec → Except String Rat)
    (explain_prediction : FeatureVec → Except String (List (String × Rat)))
    (version : String) (st : EngineState) (txn : Transaction) (elapsed_ms : Rat) (s : Rat)
    (hmal : isMalformed txn = true)
    (hp : predict_proba (extract_features log1p npStd st.fe txn) = .ok s) :
    (detect_fraud (okExtract log1p npStd) predict_proba explain_prediction version st txn
        elapsed_ms).1.fraud_score = s
      ∧ (detect_fraud (okExtract log1p npStd) predict_proba explain_prediction version st txn
          elapsed_ms).2.total_transactions = st.total_transactions + 1
      ∧ (detect_fraud (okExtract log1p npStd) predict_proba explain_prediction version st txn
          elapsed_ms).2.fe.user_transaction_history
          = update_history st.fe.user_transaction_history txn := by
  refine ⟨?_, ?_, ?_⟩ <;> simp [detect_fraud, okExtract, hp]

theorem malformed_processed_normally_witness :
    isMalformed txBad = true
      ∧ (detect_fraud (okExtract l1z stdz) okPredict3 okExplain "v1" st0 txBad
          3).1.fraud_score = 3 / 10
      ∧ (detect_fraud (okExtract l1z stdz) okPredict3 okExplain "v1" st0 txBad
          3).2.total_transactions = st0.total_transactions + 1
      ∧ (detect_fraud (okExtract l1z stdz) okPredict3 okExplain "v1" st0 txBad
          3).2.fe.user_transaction_history
          = update_history st0.fe.user_transaction_history txBad := by
  have h := malformed_processed_normally l1z stdz okPredict3 okExplain "v1" st0 txBad 3 (3 / 10)
    (by decide) rfl
  exact ⟨by decide, h.1, h.2.1, h.2.2⟩

/-- C9: with fewer than 100 accumulated feedback records,
optimize_threshold is a no-op: it returns the pre-existing threshold
and leaves the manager state (threshold and feedback history)
unchanged. -/
theorem optimize_noop_below_100 (m : AdaptiveThresholdManager)
    (h : m.feedback_history.length < 100) :
    optimize_threshold m = (m.threshold, m) := by
  simp [optimize_threshold, h]

theorem optimize_noop_below_100_witness :
    mgr0.feedback_history.length < 100
      ∧ optimize_threshold mgr0 = (mgr0.threshold, mgr0) :=
  ⟨by decide, optimize_noop_below_100 mgr0 (by decide)⟩

/-- Unfolding equation of optimize_threshold. -/
theorem optimize_threshold_eq (m : AdaptiveThresholdManager) :
    optimize_threshold m
      = if m.feedback_history.length < 100 then (m.threshold, m)
        else ((thresholdGrid.foldl (calibStep (fun t =>
            -(calibLoss (lastSlice 1000 m.feedback_history) m.target_precision
              m.target_recall t))) (m.threshold, none)).1,
          { m with threshold := (thresholdGrid.foldl (calibStep (fun t =>
            -(calibLoss (lastSlice 1000 m.feedback_history) m.target_precision
              m.target_recall t))) (m.threshold, none)).1 }) := rfl

/-- C8: with at least 100 feedback records, optimize_threshold evaluates
the 50 evenly spaced candidates across 0.1 to 0.9 against the most
recent 1000 feedback records, selects the candidate minimizing the sum
of the absolute precision and recall gaps to the targets with ties
resolved to the first candidate in ascending order, stores it as the
new threshold (leaving the rest of the manager unchanged) and returns
it. -/
theorem optimize_selects_first_best (m : AdaptiveThresholdManager)
    (h : 100 ≤ m.feedback_history.length) :
    ∃ r, optimize_threshold m = (r, { m with threshold := r })
      ∧ r ∈ thresholdGrid
      ∧ (∀ u ∈ thresholdGrid,
          calibLoss (lastSlice 1000 m.feedback_history) m.target_precision m.target_recall r
            ≤ calibLoss (lastSlice 1000 m.feedback_history) m.target_precision
                m.target_recall u)
      ∧ (∃ pre post, thresholdGrid = pre ++ r :: post
          ∧ ∀ x ∈ pre,
              calibLoss (lastSlice 1000 m.feedback_history) m.target_precision m.target_recall r
                < calibLoss (lastSlice 1000 m.feedback_history) m.target_precision
                    m.target_recall x)
      ∧ thresholdGrid.length = 50
      ∧ thresholdGrid.head? = some (1 / 10)
      ∧ thresholdGrid.getLast? = some (9 / 10)
      ∧ (∀ i, i < 49 →
          thresholdGrid.getD (i + 1) 0 - thresholdGrid.getD i 0 = 8 / 10 / 49)
      ∧ lastSlice 1000 m.feedback_history
          = m.feedback_history.drop (m.feedback_history.length - 1000) := by
  have hnot : ¬ m.feedback_history.length < 100 := not_lt.mpr h
  have hlen50 : thresholdGrid.length = 50 := by
    simp [thresholdGrid]
  have hne : thresholdGrid ≠ [] := by
    intro hc
    rw [hc] at hlen50
    exact absurd hlen50 (by norm_num)
  have hgetD : ∀ j, j < 50 → thresholdGrid.getD j 0 = 1 / 10 + (j : Rat) * (8 / 10) / 49 := by
    intro j hj
    rw [thresholdGrid, List.getD_eq_getElem?_getD, List.getElem?_map, List.getElem?_range hj]
    simp
  have hopt := optimize_threshold_eq m
  rw [if_neg hnot] at hopt
  obtain ⟨hmem, hle, hfirst⟩ := foldl_calibStep_spec
    (fun t => -(calibLoss (lastSlice 1000 m.feedback_history) m.target_precision
      m.target_recall t)) m.threshold thresholdGrid hne
  refine ⟨_, hopt, hmem, ?_, ?_, hlen50, ?_, ?_, ?_, rfl⟩
  · intro u hu
    exact neg_le_neg_iff.mp (hle u hu)
  · obtain ⟨pre, post, hsplit, hlt⟩ := hfirst
    exact ⟨pre, post, hsplit, fun x hx => neg_lt_neg_iff.mp (hlt x hx)⟩
  · rw [thresholdGrid, List.range_succ_eq_map]
    simp
  · rw [thresholdGrid, List.range_succ, List.map_append]
    simp only [List.map_cons, List.map_nil]
    rw [List.getLast?_concat]
    norm_num
  · intro i hi
    rw [hgetD (i + 1) (by omega), hgetD i (by omega)]
    push_cast
    ring

theorem optimize_selects_first_best_witness :
    100 ≤ mgr100.feedback_history.length
      ∧ (∃ r, optimize_threshold mgr100 = (r, { mgr100 with threshold := r })
          ∧ r ∈ thresholdGrid
          ∧ (∀ u ∈ thresholdGrid,
              calibLoss (lastSlice 1000 mgr100.feedback_history) mgr100.target_precision
                  mgr100.target_recall r
                ≤ calibLoss (lastSlice 1000 mgr100.feedback_history) mgr100.target_precision
                    mgr100.target_recall u)
          ∧ (∃ pre post, thresholdGrid = pre ++ r :: post
              ∧ ∀ x ∈ pre,
                  calibLoss (lastSlice 1000 mgr100.feedback_history) mgr100.target_precision
                      mgr100.target_recall r
                    < calibLoss (lastSlice 1000 mgr100.feedback_history) mgr100.target_precision
                        mgr100.target_recall x)
          ∧ thresholdGrid.length = 50
          ∧ thresholdGrid.head? = some (1 / 10)
          ∧ thresholdGrid.getLast? = some (9 / 10)
          ∧ (∀ i, i < 49 →
              thresholdGrid.getD (i + 1) 0 - thresholdGrid.getD i 0 = 8 / 10 / 49)
          ∧ lastSlice 1000 mgr100.feedback_history
              = mgr100.feedback_history.drop (mgr100.feedback_history.length - 1000)) :=
  ⟨by simp [mgr100], optimize_selects_first_best mgr100 (by simp [mgr100])⟩

end FraudDet
